import Mathlib

/-!
Verification of the keybase store (maxtek6/keybase-go).

The entry log (the SQLite table `keybase(namespace TEXT, key TEXT, expiration
INTEGER)`) is embedded as a `List Entry` in insertion order.  Each SQL query
built in `query.go` is embedded as a pure Lean function over that list, and
each facade method of `keybase.go` as a function that additionally threads a
cancellation flag (the `context.Context`) and an error, mirroring the Go
control flow.
-/

namespace Keybase

/-- One row of the `keybase` table: `(namespace, key, expiration)`, created by
`newPutQuery` (src/query.go:44-49).  `expiration` is a Unix-millisecond
timestamp, modelled as `Int`. -/
structure Entry where
  «namespace» : String
  key : String
  expiration : Int
  deriving DecidableEq

/-- Embeds `strings.ReplaceAll(s, old, new)` for the single-character
arguments used in `newMatchKeyQuery`: every occurrence of `old` is replaced
by `new`. -/
def replaceAllChar (s : List Char) (old new : Char) : List Char :=
  s.map fun c => if c = old then new else c

/-- The glob-to-LIKE translation performed inline in `newMatchKeyQuery`
(src/query.go:60): `strings.ReplaceAll(strings.ReplaceAll(pattern, "*", "%"),
"?", "_")`. -/
def globTranslate (pat : String) : String :=
  String.mk (replaceAllChar (replaceAllChar pat.data '*' '%') '?' '_')

/-- Modelled from the spec: the external match engine's `LIKE` semantics used
by `newMatchKeyQuery` via `builder.Like` — `%` matches any run of characters,
`_` matches exactly one character, any other pattern character matches itself
(spec §4.1: "`*` maps to match any run of characters"). -/
def likeMatch : List Char → List Char → Bool
  | [], s => s.isEmpty
  | p :: ps, s =>
    if p = '%' then
      likeMatch ps s ||
        (match s with
         | [] => false
         | _ :: t => likeMatch (p :: ps) t)
    else
      match s with
      | [] => false
      | c :: t => (if p = '_' then true else p == c) && likeMatch ps t
termination_by p s => (s.length, p.length)

/-- The `expiration > timestamp` constraint appended when `active` is true,
and omitted when it is false (`builder.GreaterThan("expiration", timestamp)`
guarded by `if active` in every query builder of src/query.go). -/
def considered (active : Bool) (ts : Int) (e : Entry) : Bool :=
  !active || decide (ts < e.expiration)

/-- Effect of `newPutQuery` (src/query.go:44-49): `INSERT INTO keybase`
appends one row. -/
def putRun (db : List Entry) (ns key : String) (expiration : Int) : List Entry :=
  db ++ [⟨ns, key, expiration⟩]

/-- Rows selected by `newMatchKeyQuery` (src/query.go:51-66): namespace
equality, `key LIKE` the translated pattern, and the optional active
constraint. -/
def matchKeyRows (db : List Entry) (ns pat : String) (active : Bool) (ts : Int) : List Entry :=
  db.filter fun e =>
    e.«namespace» == ns &&
    likeMatch (globTranslate pat).data e.key.data &&
    considered active ts e

/-- Result of `newMatchKeyQuery`: the `key` column of the selected rows,
`DISTINCT` when `unique` is set. -/
def matchKeyRun (db : List Entry) (ns pat : String) (active unique : Bool) (ts : Int) :
    List String :=
  let keys := (matchKeyRows db ns pat active ts).map (·.key)
  if unique then keys.dedup else keys

/-- Rows selected by `newCountKeyQuery` (src/query.go:68-80): namespace and
key equality, optional active constraint. -/
def countKeyRows (db : List Entry) (ns key : String) (active : Bool) (ts : Int) : List Entry :=
  db.filter fun e =>
    e.«namespace» == ns && e.key == key && considered active ts e

/-- Result of `newCountKeyQuery`: `COUNT(key)` over the selected rows. -/
def countKeyRun (db : List Entry) (ns key : String) (active : Bool) (ts : Int) : Nat :=
  (countKeyRows db ns key active ts).length

/-- Rows selected by `newGetKeysQuery` and `newCountKeysQuery`
(src/query.go:82-113): namespace equality, optional active constraint. -/
def getKeysRows (db : List Entry) (ns : String) (active : Bool) (ts : Int) : List Entry :=
  db.filter fun e => e.«namespace» == ns && considered active ts e

/-- Result of `newGetKeysQuery`: the `key` column, `DISTINCT` when `unique`. -/
def getKeysRun (db : List Entry) (ns : String) (active unique : Bool) (ts : Int) :
    List String :=
  let keys := (getKeysRows db ns active ts).map (·.key)
  if unique then keys.dedup else keys

/-- Result of `newCountKeysQuery`: `COUNT(key)` or `COUNT(DISTINCT key)`. -/
def countKeysRun (db : List Entry) (ns : String) (active unique : Bool) (ts : Int) : Nat :=
  if unique then ((getKeysRows db ns active ts).map (·.key)).dedup.length
  else (getKeysRows db ns active ts).length

/-- Rows selected by `newGetNamespacesQuery` (src/query.go:115-124): all
entries, with the optional active constraint. -/
def getNamespacesRows (db : List Entry) (active : Bool) (ts : Int) : List Entry :=
  db.filter fun e => considered active ts e

/-- Result of `newGetNamespacesQuery`: `SELECT DISTINCT namespace`. -/
def getNamespacesRun (db : List Entry) (active : Bool) (ts : Int) : List String :=
  ((getNamespacesRows db active ts).map (·.«namespace»)).dedup

/-- Rows considered by `newCountNamespacesQuery` (src/query.go:126-134). -/
def countNamespacesRows (db : List Entry) (active : Bool) (ts : Int) : List Entry :=
  db.filter fun e => considered active ts e

/-- Result of `newCountNamespacesQuery`: `COUNT(DISTINCT namespace)`. -/
def countNamespacesRun (db : List Entry) (active : Bool) (ts : Int) : Nat :=
  ((countNamespacesRows db active ts).map (·.«namespace»)).dedup.length

/-- Rows considered by `newCountEntriesQuery` (src/query.go:136-149): all
entries, with the optional active constraint. -/
def countEntriesRows (db : List Entry) (active : Bool) (ts : Int) : List Entry :=
  db.filter fun e => considered active ts e

/-- Result of `newCountEntriesQuery`: `COUNT(CONCAT(namespace, key))` when
`unique` is false (every row counted, the concatenation is never NULL), and
`COUNT(DISTINCT CONCAT(namespace, key))` when `unique` is true — note the
deduplication is by the concatenated string `namespace ++ key`. -/
def countEntriesRun (db : List Entry) (active unique : Bool) (ts : Int) : Nat :=
  if unique then
    ((countEntriesRows db active ts).map fun e => e.«namespace» ++ e.key).dedup.length
  else (countEntriesRows db active ts).length

/-- Effect of `newPruneEntriesQuery` (src/query.go:151-156): `DELETE FROM
keybase WHERE expiration <= timestamp` keeps exactly the rows for which the
delete condition fails. -/
def pruneEntriesRun (db : List Entry) (ts : Int) : List Entry :=
  db.filter fun e => !decide (e.expiration ≤ ts)

/-- Effect of `newClearEntriesQuery` (src/query.go:158-162): `DELETE FROM
keybase` removes every row. -/
def clearEntriesRun (_db : List Entry) : List Entry := []

/-- Follows the claim's words (not the source): the number of distinct
`(namespace, key)` pairs among the considered entries, for comparison with
`countEntriesRun`. -/
def specDistinctPairCount (db : List Entry) (active : Bool) (ts : Int) : Nat :=
  ((db.filter (considered active ts)).map fun e => (e.«namespace», e.key)).dedup.length

/-- The `invalidCount` sentinel of src/keybase.go:36. -/
def invalidCount : Int := -1

/-- Modelled from the spec: the storage collaborator's `ExecContext` (spec §5,
§6) — when the cancellation signal has fired it returns a failure with no
effect on the entry log; otherwise it applies the statement's effect. -/
def execContext (cancelled : Bool) (db : List Entry) (f : List Entry → List Entry) :
    List Entry × Option String :=
  if cancelled then (db, some "context deadline exceeded") else (f db, none)

/-- Embeds `dbtx.queryCount` (src/query.go:172-188) for a scalar query whose
successful responses are the integer rows `rows`: `count` starts at `0`; if
`QueryContext` fails (here: the context is cancelled) the error is returned;
if a first row exists it is scanned into `count`; with zero rows `count`
stays `0` with a nil error. -/
def queryCount (cancelled : Bool) (rows : List Int) : Int × Option String :=
  if cancelled then (0, some "context deadline exceeded")
  else
    match rows with
    | [] => (0, none)
    | v :: _ => (v, none)

/-- Embeds `Keybase.Put` (src/keybase.go:113-123): computes the expiration
from the single clock read, executes the insert, and wraps any error. -/
def Put (cancelled : Bool) (db : List Entry) (ns key : String) (now ttl : Int) :
    List Entry × Option String :=
  let expiration := now + ttl
  match execContext cancelled db (fun d => putRun d ns key expiration) with
  | (db2, some e) => (db2, some ("keybase.Put: failed to insert key: " ++ e))
  | (db2, none) => (db2, none)

/-- Embeds `Keybase.CountKey` (src/keybase.go:138-147): on query failure it
returns the `invalidCount` sentinel alongside the wrapped error. -/
def CountKey (cancelled : Bool) (db : List Entry) (ns key : String) (active : Bool)
    (ts : Int) : Int × Option String :=
  match queryCount cancelled [(countKeyRun db ns key active ts : Int)] with
  | (_, some e) => (invalidCount, some ("keybase.CountKey: failed to query database: " ++ e))
  | (c, none) => (c, none)

/-- Embeds `Keybase.CountKeys` (src/keybase.go:162-171). -/
def CountKeys (cancelled : Bool) (db : List Entry) (ns : String) (active unique : Bool)
    (ts : Int) : Int × Option String :=
  match queryCount cancelled [(countKeysRun db ns active unique ts : Int)] with
  | (_, some e) => (invalidCount, some ("keybase.CountKeys: failed to query database: " ++ e))
  | (c, none) => (c, none)

/-- Embeds `Keybase.CountNamespaces` (src/keybase.go:186-195). -/
def CountNamespaces (cancelled : Bool) (db : List Entry) (active : Bool) (ts : Int) :
    Int × Option String :=
  match queryCount cancelled [(countNamespacesRun db active ts : Int)] with
  | (_, some e) =>
    (invalidCount, some ("keybase.CountNamespaces: failed to query database: " ++ e))
  | (c, none) => (c, none)

/-- Embeds `Keybase.CountEntries` (src/keybase.go:198-207). -/
def CountEntries (cancelled : Bool) (db : List Entry) (active unique : Bool) (ts : Int) :
    Int × Option String :=
  match queryCount cancelled [(countEntriesRun db active unique ts : Int)] with
  | (_, some e) =>
    (invalidCount, some ("keybase.CountEntries: failed to query database: " ++ e))
  | (c, none) => (c, none)

/-- Embeds `Keybase.PruneEntries` (src/keybase.go:210-219). -/
def PruneEntries (cancelled : Bool) (db : List Entry) (ts : Int) :
    List Entry × Option String :=
  match execContext cancelled db (fun d => pruneEntriesRun d ts) with
  | (db2, some e) => (db2, some ("keybase.PruneEntries: failed to insert key: " ++ e))
  | (db2, none) => (db2, none)

/-- Modelled from the spec: the `ClearEntries` facade method — absent from
src/keybase.go, present in the spec's operation table (§4.3) and exercised by
`TestEntries` (src/keybase_test.go:216-230) — which under the exclusive lock
executes `newClearEntriesQuery` and propagates any error. -/
def ClearEntries (cancelled : Bool) (db : List Entry) : List Entry × Option String :=
  match execContext cancelled db clearEntriesRun with
  | (db2, some e) => (db2, some ("keybase.ClearEntries: failed to clear entries: " ++ e))
  | (db2, none) => (db2, none)

/-!
Event-trace model of the facade methods' statement order (src/keybase.go).
Each method executes, in order: one clock read (`time.Now().UnixMilli()`),
lock acquisition (`mu.Lock()` or `mu.RLock()`), the collaborator call built
with the clock value, and — via `defer mu.Unlock()` / `defer mu.RUnlock()` —
the release, which runs on the error path and the success path alike.  The
`fail` parameter selects the exit path; because release is deferred, the
emitted trace is the same for both.
-/

/-- A step of a facade method.  `acquire true` / `release true` are the
exclusive (writer) lock operations; `acquire false` / `release false` the
shared (reader) ones.  `callDB t` is the collaborator call, recording the
clock value `t` the query or expiration was built from. -/
inductive Event where
  | readClock : Int → Event
  | acquire : Bool → Event
  | callDB : Int → Event
  | release : Bool → Event
  deriving DecidableEq

/-- Whether an event is a clock read. -/
def Event.isReadClock : Event → Bool
  | Event.readClock _ => true
  | _ => false

/-- Statement order of `Put` (src/keybase.go:113-123): expiration computed
from the clock, then exclusive lock, insert, deferred unlock. -/
def putTrace (now : Int) (_fail : Bool) : List Event :=
  [Event.readClock now, Event.acquire true, Event.callDB now, Event.release true]

/-- Statement order of `MatchKey` (src/keybase.go:126-135). -/
def matchKeyTrace (now : Int) (_fail : Bool) : List Event :=
  [Event.readClock now, Event.acquire false, Event.callDB now, Event.release false]

/-- Statement order of `CountKey` (src/keybase.go:138-147). -/
def countKeyTrace (now : Int) (_fail : Bool) : List Event :=
  [Event.readClock now, Event.acquire false, Event.callDB now, Event.release false]

/-- Statement order of `GetKeys` (src/keybase.go:150-159). -/
def getKeysTrace (now : Int) (_fail : Bool) : List Event :=
  [Event.readClock now, Event.acquire false, Event.callDB now, Event.release false]

/-- Statement order of `CountKeys` (src/keybase.go:162-171). -/
def countKeysTrace (now : Int) (_fail : Bool) : List Event :=
  [Event.readClock now, Event.acquire false, Event.callDB now, Event.release false]

/-- Statement order of `GetNamespaces` (src/keybase.go:174-183). -/
def getNamespacesTrace (now : Int) (_fail : Bool) : List Event :=
  [Event.readClock now, Event.acquire false, Event.callDB now, Event.release false]

/-- Statement order of `CountNamespaces` (src/keybase.go:186-195). -/
def countNamespacesTrace (now : Int) (_fail : Bool) : List Event :=
  [Event.readClock now, Event.acquire false, Event.callDB now, Event.release false]

/-- Statement order of `CountEntries` (src/keybase.go:198-207). -/
def countEntriesTrace (now : Int) (_fail : Bool) : List Event :=
  [Event.readClock now, Event.acquire false, Event.callDB now, Event.release false]

/-- Statement order of `PruneEntries` (src/keybase.go:210-219). -/
def pruneEntriesTrace (now : Int) (_fail : Bool) : List Event :=
  [Event.readClock now, Event.acquire true, Event.callDB now, Event.release true]

/-- Modelled from the spec: statement order of `ClearEntries` (§2 control
flow, §4.3 exclusive lock), mirroring the other exclusive facade methods. -/
def clearEntriesTrace (now : Int) (_fail : Bool) : List Event :=
  [Event.readClock now, Event.acquire true, Event.callDB now, Event.release true]

/-- All facade traces, each paired with its designated lock mode
(`true` = exclusive) per the spec's operation table (§4.3). -/
def allFacadeTraces (now : Int) (fail : Bool) : List (List Event × Bool) :=
  [(putTrace now fail, true),
   (matchKeyTrace now fail, false),
   (countKeyTrace now fail, false),
   (getKeysTrace now fail, false),
   (countKeysTrace now fail, false),
   (getNamespacesTrace now fail, false),
   (countNamespacesTrace now fail, false),
   (countEntriesTrace now fail, false),
   (pruneEntriesTrace now fail, true),
   (clearEntriesTrace now fail, true)]

/-! ## Theorems -/

/-- The LIKE wildcard `%` (image of the glob `*`) matches every string. -/
theorem likeMatch_percent_any (s : List Char) : likeMatch ['%'] s = true := by
  induction s with
  | nil => simp [likeMatch]
  | cons c t ih => simp [likeMatch, ih]

/-- C1: counterexample — in the entry log holding only the key `"x"` under
namespace `"ns"`, `MatchKey` with the caller-supplied pattern `"?"` returns
`["x"]`: the translated `?` matched the single character `x`, although the
claim says a literal `?` in the pattern behaves as a literal character
matching only `?`. -/
theorem C1_counterexample :
    matchKeyRun [⟨"ns", "x", 10⟩] "ns" "?" false false 0 = ["x"] ∧ "x" ≠ "?" := by
  constructor
  · simp [matchKeyRun, matchKeyRows, considered, globTranslate, replaceAllChar,
      likeMatch, List.filter]
  · decide

/-- C1 (amended): in MatchKey's glob translation `*` is mapped to the match
engine's any-run wildcard `%`, and `?` is mapped to the engine's
single-character wildcard `_`, so a `?` in the pattern matches exactly one
arbitrary character — not only a literal `?`.  Consequently the pattern `*`
selects every key of the namespace. -/
theorem C1_glob_translation (db : List Entry) (ns : String) (ts : Int) (e : Entry)
    (s : List Char) (c d : Char) :
    globTranslate "*" = "%" ∧
    globTranslate "?" = "_" ∧
    likeMatch ['%'] s = true ∧
    likeMatch ['_'] [c] = true ∧
    likeMatch ['_'] [] = false ∧
    likeMatch ['_'] (c :: d :: s) = false ∧
    (e ∈ matchKeyRows db ns "*" false ts ↔ e ∈ db ∧ e.«namespace» = ns) := by
  refine ⟨rfl, rfl, likeMatch_percent_any s, by simp [likeMatch], by simp [likeMatch],
    by simp [likeMatch], ?_⟩
  simp [matchKeyRows, List.mem_filter, considered, globTranslate, replaceAllChar,
    likeMatch_percent_any]

/-- C2: counterexample — the entry log `[("a", "bc"), ("ab", "c")]` holds two
distinct (namespace, key) pairs, yet `CountEntries` with `unique = true`
returns 1, because both rows have the same concatenation `CONCAT(namespace,
key) = "abc"`. -/
theorem C2_counterexample :
    countEntriesRun [⟨"a", "bc", 1⟩, ⟨"ab", "c", 1⟩] false true 0 = 1 ∧
    specDistinctPairCount [⟨"a", "bc", 1⟩, ⟨"ab", "c", 1⟩] false 0 = 2 := by
  constructor <;> rfl

/-- C2 (amended): `CountEntries` with `unique = true` counts distinct
`namespace ++ key` concatenations: on a two-entry log, the two entries are
collapsed if and only if their concatenations are equal — equality of both
components suffices, but distinct pairs whose concatenations coincide also
collapse. -/
theorem C2_unique_concat (e1 e2 : Entry) (ts : Int) :
    countEntriesRun [e1, e2] false true ts =
      (if e1.«namespace» ++ e1.key = e2.«namespace» ++ e2.key then 1 else 2) := by
  by_cases h : e1.«namespace» ++ e1.key = e2.«namespace» ++ e2.key
  · simp [countEntriesRun, countEntriesRows, considered, List.filter, h,
      List.dedup_cons_of_mem, List.dedup_nil]
  · simp [countEntriesRun, countEntriesRows, considered, List.filter,
      List.dedup_cons_of_not_mem, h]

/-- C3: for every query/count operation taking the `active` flag, a row is
considered with `active = true` exactly when its expiration is strictly
greater than the snapshot timestamp (in addition to the operation's other
constraints), and with `active = false` the expiration constraint is absent,
so live and stale entries alike are considered. -/
theorem C3_active_filter (db : List Entry) (ns pat key : String) (ts : Int) (e : Entry) :
    (e ∈ matchKeyRows db ns pat true ts ↔
      e ∈ db ∧ e.«namespace» = ns ∧
        likeMatch (globTranslate pat).data e.key.data = true ∧ ts < e.expiration) ∧
    (e ∈ matchKeyRows db ns pat false ts ↔
      e ∈ db ∧ e.«namespace» = ns ∧ likeMatch (globTranslate pat).data e.key.data = true) ∧
    (e ∈ countKeyRows db ns key true ts ↔
      e ∈ db ∧ e.«namespace» = ns ∧ e.key = key ∧ ts < e.expiration) ∧
    (e ∈ countKeyRows db ns key false ts ↔ e ∈ db ∧ e.«namespace» = ns ∧ e.key = key) ∧
    (e ∈ getKeysRows db ns true ts ↔ e ∈ db ∧ e.«namespace» = ns ∧ ts < e.expiration) ∧
    (e ∈ getKeysRows db ns false ts ↔ e ∈ db ∧ e.«namespace» = ns) ∧
    (e ∈ getNamespacesRows db true ts ↔ e ∈ db ∧ ts < e.expiration) ∧
    (e ∈ getNamespacesRows db false ts ↔ e ∈ db) ∧
    (e ∈ countNamespacesRows db true ts ↔ e ∈ db ∧ ts < e.expiration) ∧
    (e ∈ countNamespacesRows db false ts ↔ e ∈ db) ∧
    (e ∈ countEntriesRows db true ts ↔ e ∈ db ∧ ts < e.expiration) ∧
    (e ∈ countEntriesRows db false ts ↔ e ∈ db) := by
  simp [matchKeyRows, countKeyRows, getKeysRows, getNamespacesRows, countNamespacesRows,
    countEntriesRows, considered, List.mem_filter, and_assoc]

/-- C4: `PruneEntries` retains exactly the entries whose expiration is
strictly after the call-time snapshot — every entry with expiration at or
before the snapshot is removed — and a subsequent
`CountEntries(active = false, unique = false)` equals the number of entries
that had not yet expired at prune time. -/
theorem C4_prune_semantics (db : List Entry) (ts : Int) (e : Entry) :
    (e ∈ pruneEntriesRun db ts ↔ e ∈ db ∧ ts < e.expiration) ∧
    countEntriesRun (pruneEntriesRun db ts) false false ts =
      (db.filter fun x => decide (ts < x.expiration)).length := by
  have hpred : (fun e : Entry => !decide (e.expiration ≤ ts)) =
      fun x : Entry => decide (ts < x.expiration) := by
    funext x
    simp [← decide_not, not_le]
  constructor
  · simp [pruneEntriesRun, List.mem_filter, not_le]
  · simp [countEntriesRun, countEntriesRows, considered, pruneEntriesRun, hpred]

/-- C5: `ClearEntries` (facade method modelled from the spec) succeeds with
no error, leaves the entry log empty regardless of the prior state and of
expirations — so `CountEntries(active = false, unique = false)` afterwards is
0 — and its trace acquires the exclusive lock and releases it on every exit
path. -/
theorem C5_clear_entries (db : List Entry) (ts now : Int) (fail : Bool) :
    (ClearEntries false db).2 = none ∧
    (ClearEntries false db).1 = [] ∧
    countEntriesRun (ClearEntries false db).1 false false ts = 0 ∧
    Event.acquire true ∈ clearEntriesTrace now fail ∧
    (clearEntriesTrace now fail).getLast? = some (Event.release true) := by
  refine ⟨rfl, rfl, rfl, ?_, rfl⟩
  simp [clearEntriesTrace]

/-- C6: every count-returning facade operation (`CountKey`, `CountKeys`,
`CountNamespaces`, `CountEntries`) returns, on success, a non-negative count
with no error, and on a collaborator/cancellation failure the sentinel
`invalidCount = -1` — negative, hence distinct from any valid count —
alongside a non-nil error. -/
theorem C6_count_sentinel (db : List Entry) (ns key : String) (active unique : Bool)
    (ts : Int) :
    ((CountKey false db ns key active ts).2 = none ∧
      0 ≤ (CountKey false db ns key active ts).1) ∧
    ((CountKey true db ns key active ts).1 = invalidCount ∧
      (CountKey true db ns key active ts).2.isSome = true) ∧
    ((CountKeys false db ns active unique ts).2 = none ∧
      0 ≤ (CountKeys false db ns active unique ts).1) ∧
    ((CountKeys true db ns active unique ts).1 = invalidCount ∧
      (CountKeys true db ns active unique ts).2.isSome = true) ∧
    ((CountNamespaces false db active ts).2 = none ∧
      0 ≤ (CountNamespaces false db active ts).1) ∧
    ((CountNamespaces true db active ts).1 = invalidCount ∧
      (CountNamespaces true db active ts).2.isSome = true) ∧
    ((CountEntries false db active unique ts).2 = none ∧
      0 ≤ (CountEntries false db active unique ts).1) ∧
    ((CountEntries true db active unique ts).1 = invalidCount ∧
      (CountEntries true db active unique ts).2.isSome = true) ∧
    invalidCount < 0 := by
  simp [CountKey, CountKeys, CountNamespaces, CountEntries, queryCount, invalidCount,
    Int.natCast_nonneg]

/-- C7: every facade operation's trace reads the clock exactly once, as its
first action — hence strictly before acquiring its lock — acquires the lock
mode designated for it (exclusive for Put/PruneEntries/ClearEntries, shared
for the queries), passes only that single clock value to the collaborator
call, and ends with the matching release on both the success and the error
exit path. -/
theorem C7_snapshot_lock_discipline (now : Int) (fail : Bool) :
    ∀ p ∈ allFacadeTraces now fail,
      p.1.countP Event.isReadClock = 1 ∧
      p.1.head? = some (Event.readClock now) ∧
      Event.acquire p.2 ∈ p.1 ∧
      (∀ t : Int, Event.callDB t ∈ p.1 → t = now) ∧
      p.1.getLast? = some (Event.release p.2) := by
  intro p hp
  fin_cases hp <;>
    refine ⟨rfl, rfl, by
      simp [putTrace, matchKeyTrace, countKeyTrace, getKeysTrace, countKeysTrace,
        getNamespacesTrace, countNamespacesTrace, countEntriesTrace, pruneEntriesTrace,
        clearEntriesTrace], fun t ht => ?_, rfl⟩ <;>
    · simp [putTrace, matchKeyTrace, countKeyTrace, getKeysTrace, countKeysTrace,
        getNamespacesTrace, countNamespacesTrace, countEntriesTrace, pruneEntriesTrace,
        clearEntriesTrace] at ht
      exact ht

/-- C7 witness: the discipline instantiated on Put's trace at clock 0 on the
error path. -/
theorem C7_snapshot_lock_discipline_witness :
    (putTrace 0 true).countP Event.isReadClock = 1 ∧
    (putTrace 0 true).getLast? = some (Event.release true) := by
  have h := C7_snapshot_lock_discipline 0 true (putTrace 0 true, true)
    (by simp [allFacadeTraces])
  exact ⟨h.1, h.2.2.2.2⟩

/-- C8: insertion accumulates and never replaces — starting from a log with
no entry in namespace `ns`, two Put inserts of the same key yield two more
entries, a subsequent non-unique count of that key in `ns` equals 2, and a
unique key count for `ns` equals 1. -/
theorem C8_put_accumulates (db : List Entry) (ns key : String) (e1 e2 ts : Int)
    (h : ∀ x ∈ db, x.«namespace» ≠ ns) :
    (putRun (putRun db ns key e1) ns key e2).length = db.length + 2 ∧
    countKeyRun (putRun (putRun db ns key e1) ns key e2) ns key false ts = 2 ∧
    countKeysRun (putRun (putRun db ns key e1) ns key e2) ns false true ts = 1 := by
  have hns0 : db.filter (fun e => e.«namespace» == ns) = [] := by
    rw [List.filter_eq_nil_iff]
    intro a ha
    simp [h a ha]
  have hd : ([key, key] : List String).dedup = [key] := by
    rw [List.dedup_cons_of_mem (by simp), List.dedup_cons_of_not_mem (by simp),
      List.dedup_nil]
  refine ⟨by simp [putRun], ?_, ?_⟩
  · simp [countKeyRun, countKeyRows, putRun, List.filter_append, considered]
    exact fun a ha hns _ => absurd hns (h a ha)
  · simp [countKeysRun, getKeysRows, putRun, List.filter_append, considered, hns0, hd]

/-- C8 witness: two inserts of key `"k"` into namespace `"n"` of the empty
log give length 2, non-unique key count 2 and unique key count 1. -/
theorem C8_put_accumulates_witness :
    (putRun (putRun [] "n" "k" 5) "n" "k" 6).length = 0 + 2 ∧
    countKeyRun (putRun (putRun [] "n" "k" 5) "n" "k" 6) "n" "k" false 0 = 2 ∧
    countKeysRun (putRun (putRun [] "n" "k" 5) "n" "k" 6) "n" false true 0 = 1 :=
  C8_put_accumulates [] "n" "k" 5 6 0 (by simp)

/-- C9: invoking Put with an already-fired cancellation signal returns a
non-nil error and leaves the entry log unchanged (so its entry count is
unchanged), while a Put whose signal has not fired commits its insert. -/
theorem C9_cancelled_put_no_write (db : List Entry) (ns key : String) (now ttl ts : Int) :
    (Put true db ns key now ttl).2.isSome = true ∧
    (Put true db ns key now ttl).1 = db ∧
    countEntriesRun (Put true db ns key now ttl).1 false false ts =
      countEntriesRun db false false ts ∧
    (Put false db ns key now ttl).1 = putRun db ns key (now + ttl) ∧
    (Put false db ns key now ttl).2 = none :=
  ⟨rfl, rfl, rfl, rfl, rfl⟩

/-- C10: when the scalar count query succeeds but the collaborator yields
zero rows, `queryCount` — the helper every count-returning operation routes
through — reports count 0 with a nil error. -/
theorem C10_empty_scalar_zero : queryCount false [] = ((0 : Int), none) := rfl

end Keybase
